import Mathlib

/-!
Shallow embedding of the Kotlin/Native garbage-collector core
(`kotlin-native/runtime/src/gc`): the STMS (`SameThreadMarkAndSweep.cpp`)
and CMS (`ConcurrentMarkAndSweep.cpp`) variants, their sweep and
weak-processing predicates, the per-mutator root-set claim flags, and the
orchestrator choreography of `PerformFullGC` rendered as event traces.

Objects are modelled by the two bits the embedded code inspects: the
`heap()` flag of `ObjHeader` and the `marked()` bit of the per-object
`ObjectData` mark word. `PerformFullGC` is straight-line code (per
preprocessor configuration), so each configuration is embedded as the
concrete list of the events it performs, in program order; lock-held
state at an event is recovered by folding the acquire/release events of
the preceding prefix.
-/

namespace GCModel

/-- Model of `ObjHeader` together with the mark bit of its associated
`ObjectData`: `heap` is `ObjHeader::heap()`, `marked` is
`ObjectData::marked()`. -/
structure ObjHeader where
  heap : Bool
  marked : Bool
deriving DecidableEq, Repr

/-- Model of `mm::ExtraObjectData`: the code under verification inspects
only its base object (`GetBaseObject()`). -/
structure ExtraObjectData where
  baseObject : ObjHeader
deriving DecidableEq, Repr

namespace stms

/-- Embeds `SweepTraits::IsMarkedByExtraObject` of
`SameThreadMarkAndSweep.cpp` (lines 35-40): if the base object is not on
the managed heap, return `true`; otherwise return the base object's mark
bit. -/
def SweepTraits.IsMarkedByExtraObject (object : ExtraObjectData) : Bool :=
  let baseObject := object.baseObject
  if !baseObject.heap then true
  else baseObject.marked

/-- Embeds `ProcessWeaksTraits::IsMarked` of `SameThreadMarkAndSweep.cpp`
(lines 52-57): the mark bit of the object's `ObjectData`. -/
def ProcessWeaksTraits.IsMarked (obj : ObjHeader) : Bool :=
  obj.marked

end stms

namespace cms

/-- Embeds `SweepTraits::IsMarkedByExtraObject` of
`ConcurrentMarkAndSweep.cpp` (lines 37-42); textually identical to the
STMS variant up to the `ObjectFactory` instantiation. -/
def SweepTraits.IsMarkedByExtraObject (object : ExtraObjectData) : Bool :=
  let baseObject := object.baseObject
  if !baseObject.heap then true
  else baseObject.marked

/-- Embeds `ProcessWeaksTraits::IsMarked` of `ConcurrentMarkAndSweep.cpp`
(lines 50-55). -/
def ProcessWeaksTraits.IsMarked (obj : ObjHeader) : Bool :=
  obj.marked

end cms

/-- Modelled from the spec: `gc::processWeaks` itself lives in
`MarkAndSweepUtils.hpp`, which is not under src/ (src/ holds only the
`ProcessWeaksTraits` it is instantiated with). Spec section 4.6: "For each
slot containing a pointer to a heap object whose mark bit is false,
atomically clear the slot". A slot holding a non-heap target is left
untouched; a slot holding a heap target is cleared exactly when
`IsMarked` is false on it. The registry is a list of slots, `none`
standing for a cleared slot. -/
def processWeaks (registry : List (Option ObjHeader)) : List (Option ObjHeader) :=
  registry.map fun slot =>
    match slot with
    | none => none
    | some obj => if obj.heap && !cms.ProcessWeaksTraits.IsMarked obj then none else some obj

/-- Model of the per-mutator GC flags of
`ConcurrentMarkAndSweep::ThreadData`: the atomics `rootSetLocked_`,
`cooperative_` and `published_`. -/
structure ThreadDataFlags where
  rootSetLocked : Bool
  cooperative : Bool
  published : Bool
deriving DecidableEq, Repr

/-- Embeds `ConcurrentMarkAndSweep::ThreadData::tryLockRootSet`
(`ConcurrentMarkAndSweep.cpp` lines 97-104): a compare-and-swap of
`rootSetLocked_` from `false` to `true`; returns whether the CAS
succeeded together with the updated flags. -/
def tryLockRootSet (s : ThreadDataFlags) : Bool × ThreadDataFlags :=
  if s.rootSetLocked = false then (true, { s with rootSetLocked := true })
  else (false, s)

/-- Embeds `ConcurrentMarkAndSweep::ThreadData::beginCooperation`
(lines 106-108). -/
def beginCooperation (s : ThreadDataFlags) : ThreadDataFlags :=
  { s with cooperative := true }

/-- Embeds `ConcurrentMarkAndSweep::ThreadData::publish` (lines 114-117);
the allocator-side `threadData_.Publish()` is outside this model. -/
def publish (s : ThreadDataFlags) : ThreadDataFlags :=
  { s with published := true }

/-- Embeds `ConcurrentMarkAndSweep::ThreadData::clearMarkFlags`
(lines 123-127): stores `false` into `published_`, `cooperative_` and
`rootSetLocked_`. -/
def clearMarkFlags (_s : ThreadDataFlags) : ThreadDataFlags :=
  { published := false, cooperative := false, rootSetLocked := false }

/-- Operations a worker may execute on a mutator's flags during one
marking epoch, i.e. between two `clearMarkFlags` calls (`clearMarkFlags`
itself delimits epochs and is applied separately). -/
inductive MutatorOp
  | tryLock
  | beginCoop
  | publishFactory
deriving DecidableEq, Repr

/-- Applies one operation to the flags, returning the new flags and the
number (0 or 1) of successful root-set claims it performed. -/
def applyOp (s : ThreadDataFlags) : MutatorOp → ThreadDataFlags × Nat
  | .tryLock =>
      let r := tryLockRootSet s
      (r.2, if r.1 then 1 else 0)
  | .beginCoop => (beginCooperation s, 0)
  | .publishFactory => (publish s, 0)

/-- Runs a sequence of operations, accumulating the number of successful
root-set claims. -/
def runOps : ThreadDataFlags → List MutatorOp → ThreadDataFlags × Nat
  | s, [] => (s, 0)
  | s, op :: rest =>
      let r := applyOp s op
      let f := runOps r.1 rest
      (f.1, r.2 + f.2)

/-- Whether a sequence of operations contains at least one
`tryLockRootSet` call. -/
def hasTryLock : List MutatorOp → Bool
  | [] => false
  | .tryLock :: _ => true
  | _ :: rest => hasTryLock rest

/-- Events performed by the GC orchestrator and the finalizer pipeline,
one constructor per call site appearing in the embedded `PerformFullGC`
and `reconfigure` bodies and in the finalizer-processor callback. -/
inductive Event
  | acquireGcMutex
  | releaseGcMutex
  | beginMarkingEpoch
  | requestSuspension
  | suspensionRequested
  | assertNotRegistered
  | waitForPauseMutation
  | waitForSuspension
  | threadsSuspended
  | onGCStart
  | stateStart
  | collectRootSet
  | markRun
  | runMainInSTW
  | endMarkingEpoch
  | enableWeakRefBarriers
  | disableWeakRefBarriers
  | processWeaksRun
  | publishObjectFactories
  | lockObjectFactory
  | lockExtraObjectFactory
  | unlockObjectFactory
  | unlockExtraObjectFactory
  | resumeThreads
  | threadsResumed
  | sweepExtraObjects
  | sweepRun
  | compactObjectPool
  | onGCFinish
  | stateFinish
  | finalizersScheduled
  | handleFinished
  | scheduleTasks
  | markDispatcherReset
  | spawnAuxThreads
  | finalizerRunBatch
  | finalizersDone
  | stateFinalized
deriving DecidableEq, Repr

/-- Embeds `SameThreadMarkAndSweep::PerformFullGC`
(`SameThreadMarkAndSweep.cpp` lines 115-176), in the configuration
without `CUSTOM_ALLOCATOR`, as the sequence of events it performs in
program order. `unlockExtraObjectFactory` and `unlockObjectFactory`
render the `= std::nullopt` resets of the iterables; the final implicit
destruction order cannot release them earlier than those resets. -/
def stmsPerformFullGCTrace : List Event :=
  [ .requestSuspension, .suspensionRequested,
    .assertNotRegistered, .waitForSuspension, .threadsSuspended,
    .onGCStart, .stateStart,
    .collectRootSet, .markRun,
    .processWeaksRun,
    .publishObjectFactories,
    .lockExtraObjectFactory, .lockObjectFactory,
    .sweepExtraObjects, .unlockExtraObjectFactory,
    .sweepRun, .unlockObjectFactory,
    .compactObjectPool,
    .onGCFinish,
    .resumeThreads, .threadsResumed,
    .stateFinish, .finalizersScheduled, .handleFinished,
    .scheduleTasks ]

/-- Embeds `ConcurrentMarkAndSweep::PerformFullGC`
(`ConcurrentMarkAndSweep.cpp` lines 188-281), in the configuration
without `CUSTOM_ALLOCATOR`, parameterized by the
`compiler::concurrentWeakSweep()` configuration constant. The
`std::unique_lock mainGCLock(gcMutex)` at function entry is rendered as
`acquireGcMutex` first and `releaseGcMutex` at scope exit, after the
`ScheduleTasks` call. -/
def cmsPerformFullGCTrace (concurrentWeakSweep : Bool) : List Event :=
  [ .acquireGcMutex,
    .beginMarkingEpoch,
    .requestSuspension, .suspensionRequested,
    .waitForPauseMutation, .threadsSuspended,
    .onGCStart, .stateStart,
    .runMainInSTW, .endMarkingEpoch ]
  ++ (if concurrentWeakSweep then
        [ .enableWeakRefBarriers, .resumeThreads, .threadsResumed ]
      else [])
  ++ [ .processWeaksRun ]
  ++ (if concurrentWeakSweep then
        [ .requestSuspension, .suspensionRequested,
          .waitForSuspension, .threadsSuspended,
          .disableWeakRefBarriers ]
      else [])
  ++ [ .publishObjectFactories,
       .lockObjectFactory, .lockExtraObjectFactory,
       .resumeThreads, .threadsResumed,
       .sweepExtraObjects, .unlockExtraObjectFactory,
       .sweepRun, .unlockObjectFactory,
       .compactObjectPool,
       .onGCFinish, .stateFinish,
       .finalizersScheduled, .handleFinished,
       .scheduleTasks,
       .releaseGcMutex ]

/-- Embeds `ConcurrentMarkAndSweep::reconfigure`
(`ConcurrentMarkAndSweep.cpp` lines 283-293), parameterized by
`compiler::gcMarkSingleThreaded()`: under single-threaded mark the
function returns before touching `gcMutex` (performing only a
`RuntimeCheck`); otherwise it locks `gcMutex`, resets the mark
dispatcher and respawns the auxiliary threads under the lock. -/
def cmsReconfigureTrace (gcMarkSingleThreaded : Bool) : List Event :=
  if gcMarkSingleThreaded then []
  else [ .acquireGcMutex, .markDispatcherReset, .spawnAuxThreads, .releaseGcMutex ]

/-- Embeds the `finalizerProcessor_` completion callback installed by the
constructors (`ConcurrentMarkAndSweep.cpp` lines 137-140,
`SameThreadMarkAndSweep.cpp` lines 79-82): `finalizersDone()` on the
epoch's handle, then `state_.finalized(epoch)`. -/
def finalizerCallbackTrace : List Event :=
  [ .finalizersDone, .stateFinalized ]

/-- Modelled from the spec: the `FinalizerProcessor` machinery is not
under src/ (src/ holds only the completion callback passed to it). Spec
section 4.8: for each scheduled batch the finalizer thread "runs
finalizers sequentially, then signals Epoch State finalized(epoch)" —
i.e. runs the batch and then invokes the completion callback. -/
def finalizerPipelineTrace : List Event :=
  .finalizerRunBatch :: finalizerCallbackTrace

/-- Events of one whole STMS epoch: the batch scheduled by
`ScheduleTasks` (the last orchestrator event) is processed by the
finalizer pipeline afterwards. -/
def stmsFullEpochTrace : List Event :=
  stmsPerformFullGCTrace ++ finalizerPipelineTrace

/-- Events of one whole CMS epoch, analogously. -/
def cmsFullEpochTrace (concurrentWeakSweep : Bool) : List Event :=
  cmsPerformFullGCTrace concurrentWeakSweep ++ finalizerPipelineTrace

/-- GC-wide locks appearing in the embedded code: the orchestrator mutex
and the two factory iteration locks taken by `LockForIter`. -/
inductive Lock
  | gcMutex
  | objectFactoryLock
  | extraObjectFactoryLock
deriving DecidableEq, Repr, Fintype

/-- The lock an event acquires, if any. -/
def lockAcquired : Event → Option Lock
  | .acquireGcMutex => some .gcMutex
  | .lockObjectFactory => some .objectFactoryLock
  | .lockExtraObjectFactory => some .extraObjectFactoryLock
  | _ => none

/-- The lock an event releases, if any. -/
def lockReleased : Event → Option Lock
  | .releaseGcMutex => some .gcMutex
  | .unlockObjectFactory => some .objectFactoryLock
  | .unlockExtraObjectFactory => some .extraObjectFactoryLock
  | _ => none

/-- Whether lock `l` is held after executing all events of `trace`. -/
def heldAfter (trace : List Event) (l : Lock) : Bool :=
  trace.foldl
    (fun held e =>
      if lockAcquired e = some l then true
      else if lockReleased e = some l then false
      else held)
    false

/-- Whether lock `l` is held at the moment the event at position `i` of
`trace` executes (i.e. after the events strictly before it). -/
def heldAt (trace : List Event) (i : Nat) (l : Lock) : Bool :=
  heldAfter (trace.take i) l

/-- Position of the first occurrence of `e` in `trace`. -/
def firstIdx (trace : List Event) (e : Event) : Nat :=
  trace.indexOf e

/-- Position of the last occurrence of `e` in `trace`. -/
def lastIdx (trace : List Event) (e : Event) : Nat :=
  trace.length - 1 - trace.reverse.indexOf e

/-- Embeds the suspension prologue of `SameThreadMarkAndSweep::PerformFullGC`
(`SameThreadMarkAndSweep.cpp` lines 115-123):
`RuntimeAssert(!kotlin::mm::IsCurrentThreadRegistered(), "GC must run on unregistered thread")`
aborts when the calling thread is registered as a mutator; otherwise
`mm::WaitForThreadsSuspension()` waits on precisely the registered
mutators and the collection proceeds. The success value is the list of
threads the suspension coordinator waits for, together with the events
the collection performs. -/
def stmsPerformFullGCRun (registeredThreads : List Nat) (gcThread : Nat) :
    Except String (List Nat × List Event) :=
  if gcThread ∈ registeredThreads then
    Except.error "GC must run on unregistered thread"
  else
    Except.ok (registeredThreads, stmsPerformFullGCTrace)

/-- Helper: a sequence of epoch operations performs no successful
root-set claim when it starts with `rootSetLocked` already set. -/
theorem runOps_locked (ops : List MutatorOp) :
    ∀ s : ThreadDataFlags, s.rootSetLocked = true →
      (runOps s ops).2 = 0 ∧ (runOps s ops).1.rootSetLocked = true := by
  induction ops with
  | nil => intro s h; exact ⟨rfl, h⟩
  | cons op rest ih =>
      intro s h
      cases op with
      | tryLock =>
          have hne : ¬ s.rootSetLocked = false := by simp [h]
          have := ih s h
          simp [runOps, applyOp, tryLockRootSet, hne, this.1, this.2]
      | beginCoop =>
          have := ih (beginCooperation s) (by simpa [beginCooperation] using h)
          simp [runOps, applyOp, this.1, this.2]
      | publishFactory =>
          have := ih (publish s) (by simpa [publish] using h)
          simp [runOps, applyOp, this.1, this.2]

/-- Helper: starting from an unlocked root set, a clear-free sequence of
epoch operations performs exactly one successful claim when it contains
a `tryLockRootSet` call and none otherwise. -/
theorem runOps_unlocked (ops : List MutatorOp) :
    ∀ s : ThreadDataFlags, s.rootSetLocked = false →
      (runOps s ops).2 = (if hasTryLock ops then 1 else 0) := by
  induction ops with
  | nil => intro s _; rfl
  | cons op rest ih =>
      intro s h
      cases op with
      | tryLock =>
          have hlock :
              ({ s with rootSetLocked := true } : ThreadDataFlags).rootSetLocked = true := rfl
          have := (runOps_locked rest _ hlock).1
          simp [runOps, applyOp, tryLockRootSet, h, hasTryLock, this]
      | beginCoop =>
          have := ih (beginCooperation s) (by simpa [beginCooperation] using h)
          simp [runOps, applyOp, hasTryLock, this]
      | publishFactory =>
          have := ih (publish s) (by simpa [publish] using h)
          simp [runOps, applyOp, hasTryLock, this]

/-- Claim C3: `clearMarkFlags` resets `rootSetLocked`, `cooperative` and
`published` to false, and between consecutive `clearMarkFlags` calls —
i.e. over any clear-free sequence of operations starting from the
cleared flags — at most one `tryLockRootSet` call succeeds; exactly one
succeeds whenever at least one such call is made, so exactly one
successful root-set claim is possible per epoch. -/
theorem C3_root_set_claimed_once_per_epoch :
    ∀ (s : ThreadDataFlags) (ops : List MutatorOp),
      clearMarkFlags s
          = { rootSetLocked := false, cooperative := false, published := false }
      ∧ (runOps (clearMarkFlags s) ops).2 ≤ 1
      ∧ (runOps (clearMarkFlags s) ops).2 = (if hasTryLock ops then 1 else 0) := by
  intro s ops
  have hcount := runOps_unlocked ops (clearMarkFlags s) rfl
  refine ⟨rfl, ?_, hcount⟩
  rw [hcount]
  by_cases h : hasTryLock ops = true <;> simp [h]

/-- Claim C2: the sweep's `IsMarkedByExtraObject` predicate returns
false (the extra-object record is reclaimable) iff its base object lies
on the managed heap and that base object's mark bit is false; for a base
object off the managed heap it returns true; and the STMS and CMS
variants of the predicate coincide. -/
theorem C2_isMarkedByExtraObject_characterization :
    ∀ e : ExtraObjectData,
      (stms.SweepTraits.IsMarkedByExtraObject e = false ↔
        e.baseObject.heap = true ∧ e.baseObject.marked = false)
      ∧ (e.baseObject.heap = false → stms.SweepTraits.IsMarkedByExtraObject e = true)
      ∧ stms.SweepTraits.IsMarkedByExtraObject e = cms.SweepTraits.IsMarkedByExtraObject e := by
  rintro ⟨⟨h, m⟩⟩
  cases h <;> cases m <;>
    simp [stms.SweepTraits.IsMarkedByExtraObject, cms.SweepTraits.IsMarkedByExtraObject]

/-- Witness for C2 at a concrete extra-object whose base is off the
managed heap. -/
theorem C2_isMarkedByExtraObject_witness :
    stms.SweepTraits.IsMarkedByExtraObject ⟨⟨false, false⟩⟩ = true :=
  (C2_isMarkedByExtraObject_characterization ⟨⟨false, false⟩⟩).2.1 rfl

/-- Counterexample to claim C1 as stated: a weak-registry slot holding a
pointer to a permanent (non-heap) object whose mark bit is false is left
untouched by weak processing — the spec clears only slots whose target
is a heap object — so after processing the slot is neither null nor
pointing to an object whose mark bit is true. -/
theorem C1_counterexample_nonheap_unmarked_slot_survives :
    ¬ (∀ slot ∈ processWeaks [some { heap := false, marked := false }],
        slot = none ∨ ∃ o, slot = some o ∧ o.marked = true) := by
  decide

/-- Claim C1 (amended): after the weak-processing stage, every registry
slot is null, or points to a marked object, or points to an object off
the managed heap; and a slot is cleared exactly when it held a pointer
to a heap object whose mark bit was false, as decided by the `IsMarked`
predicate used by `processWeaks`. -/
theorem C1_processWeaks_characterization :
    ∀ registry : List (Option ObjHeader),
      (∀ slot ∈ processWeaks registry,
        slot = none ∨ ∃ o, slot = some o ∧ (o.marked = true ∨ o.heap = false))
      ∧ (∀ (i : Nat) (o : ObjHeader), registry[i]? = some (some o) →
          ((processWeaks registry)[i]? = some none ↔
            o.heap = true ∧ cms.ProcessWeaksTraits.IsMarked o = false)) := by
  intro registry
  constructor
  · intro slot hmem
    rw [processWeaks, List.mem_map] at hmem
    obtain ⟨a, _, rfl⟩ := hmem
    cases a with
    | none => exact Or.inl rfl
    | some o =>
        cases hh : o.heap <;> cases hm : o.marked <;>
          simp [cms.ProcessWeaksTraits.IsMarked, hh, hm]
  · intro i o h
    have hmap : (processWeaks registry)[i]? =
        (registry[i]?).map fun slot =>
          match slot with
          | none => none
          | some obj =>
              if obj.heap && !cms.ProcessWeaksTraits.IsMarked obj then none else some obj := by
      rw [processWeaks, List.getElem?_map]
    rw [hmap, h]
    cases hh : o.heap <;> cases hm : o.marked <;>
      simp [cms.ProcessWeaksTraits.IsMarked, hh, hm]

/-- Witness for C1 (amended) at a one-slot registry holding an unmarked
heap object: the slot is cleared. -/
theorem C1_processWeaks_witness :
    (processWeaks [some { heap := true, marked := false }])[0]? = some none :=
  ((C1_processWeaks_characterization [some { heap := true, marked := false }]).2 0
      { heap := true, marked := false } rfl).mpr ⟨rfl, rfl⟩

/-- Claim C4: in every full collection, in both variants (without the
custom allocator), the extra-object sweep completes — including the
release of the extra-object-factory iterable — before the object sweep
begins, so the object sweep never runs while extra-object iteration is
in progress. -/
theorem C4_extra_object_sweep_precedes_object_sweep :
    (firstIdx stmsPerformFullGCTrace .sweepExtraObjects
        < firstIdx stmsPerformFullGCTrace .sweepRun
      ∧ firstIdx stmsPerformFullGCTrace .unlockExtraObjectFactory
        < firstIdx stmsPerformFullGCTrace .sweepRun)
    ∧ ∀ cws : Bool,
        firstIdx (cmsPerformFullGCTrace cws) .sweepExtraObjects
            < firstIdx (cmsPerformFullGCTrace cws) .sweepRun
        ∧ firstIdx (cmsPerformFullGCTrace cws) .unlockExtraObjectFactory
            < firstIdx (cmsPerformFullGCTrace cws) .sweepRun := by
  decide

/-- Claim C5: in the CMS `PerformFullGC`, both factory iteration locks
are already held at the sweep-phase `ResumeThreads` (the final resume of
the epoch), that resume precedes the sweep passes, and each sweep pass
runs with its factory's iteration lock held. -/
theorem C5_factory_locks_taken_before_sweep_phase_resume :
    ∀ cws : Bool,
      heldAt (cmsPerformFullGCTrace cws)
          (lastIdx (cmsPerformFullGCTrace cws) .resumeThreads) .objectFactoryLock = true
      ∧ heldAt (cmsPerformFullGCTrace cws)
          (lastIdx (cmsPerformFullGCTrace cws) .resumeThreads) .extraObjectFactoryLock = true
      ∧ lastIdx (cmsPerformFullGCTrace cws) .resumeThreads
          < firstIdx (cmsPerformFullGCTrace cws) .sweepExtraObjects
      ∧ heldAt (cmsPerformFullGCTrace cws)
          (firstIdx (cmsPerformFullGCTrace cws) .sweepExtraObjects) .extraObjectFactoryLock = true
      ∧ heldAt (cmsPerformFullGCTrace cws)
          (firstIdx (cmsPerformFullGCTrace cws) .sweepRun) .objectFactoryLock = true := by
  decide

/-- Claim C6: within one epoch, in both variants, `state_.finish` is
invoked by the orchestrator before the finalizer batch is handed to
`ScheduleTasks`, the finalizer pipeline runs the batch only after that,
and the completion callback performs `finalizersDone` before
`state_.finalized` — so `finalized(e)` occurs no earlier than
`finish(e)`. -/
theorem C6_finalized_no_earlier_than_finish :
    (firstIdx stmsFullEpochTrace .stateFinish < firstIdx stmsFullEpochTrace .scheduleTasks
      ∧ firstIdx stmsFullEpochTrace .scheduleTasks < firstIdx stmsFullEpochTrace .finalizerRunBatch
      ∧ firstIdx stmsFullEpochTrace .finalizerRunBatch < firstIdx stmsFullEpochTrace .finalizersDone
      ∧ firstIdx stmsFullEpochTrace .finalizersDone < firstIdx stmsFullEpochTrace .stateFinalized)
    ∧ ∀ cws : Bool,
        firstIdx (cmsFullEpochTrace cws) .stateFinish
            < firstIdx (cmsFullEpochTrace cws) .scheduleTasks
        ∧ firstIdx (cmsFullEpochTrace cws) .scheduleTasks
            < firstIdx (cmsFullEpochTrace cws) .finalizerRunBatch
        ∧ firstIdx (cmsFullEpochTrace cws) .finalizerRunBatch
            < firstIdx (cmsFullEpochTrace cws) .finalizersDone
        ∧ firstIdx (cmsFullEpochTrace cws) .finalizersDone
            < firstIdx (cmsFullEpochTrace cws) .stateFinalized := by
  decide

/-- Counterexample to claim C7 as stated: in the STMS variant both sweep
passes execute before `ResumeThreads`, not after it, so it is false
that in both variants `ResumeThreads` happens before the sweep passes
begin. -/
theorem C7_counterexample_stms_sweeps_before_resume :
    ¬ (firstIdx stmsPerformFullGCTrace .resumeThreads
          < firstIdx stmsPerformFullGCTrace .sweepExtraObjects
       ∧ firstIdx stmsPerformFullGCTrace .resumeThreads
          < firstIdx stmsPerformFullGCTrace .sweepRun) := by
  decide

/-- Claim C7 (amended): in the CMS variant the sweep phase executes
while mutators are resumed — the final `ResumeThreads` precedes both
sweep passes — whereas in the STMS variant both sweep passes execute
during the stop-the-world pause, before `ResumeThreads`. -/
theorem C7_sweep_resume_ordering_per_variant :
    (firstIdx stmsPerformFullGCTrace .sweepExtraObjects
        < firstIdx stmsPerformFullGCTrace .resumeThreads
      ∧ firstIdx stmsPerformFullGCTrace .sweepRun
        < firstIdx stmsPerformFullGCTrace .resumeThreads)
    ∧ ∀ cws : Bool,
        lastIdx (cmsPerformFullGCTrace cws) .resumeThreads
            < firstIdx (cmsPerformFullGCTrace cws) .sweepExtraObjects
        ∧ lastIdx (cmsPerformFullGCTrace cws) .resumeThreads
            < firstIdx (cmsPerformFullGCTrace cws) .sweepRun := by
  decide

/-- Counterexample to claim C8 as stated: the STMS `PerformFullGC` never
acquires `gcMutex` (the mutex exists only in the CMS translation unit),
so it is false that in both variants the orchestrator holds `gcMutex`
throughout `PerformFullGC`. -/
theorem C8_counterexample_stms_runs_without_gcMutex :
    ¬ (∀ i : Fin stmsPerformFullGCTrace.length,
        i.val = 0 ∨ heldAt stmsPerformFullGCTrace i.val .gcMutex = true) := by
  decide

/-- Claim C8 (amended): in the CMS variant the orchestrator holds
`gcMutex` for the entire duration of `PerformFullGC` (from the acquire
at entry onwards) and for the whole body of `reconfigure` when it does
any work (under `gcMarkSingleThreaded`, `reconfigure` returns before
touching the mutex, having done nothing); the STMS variant uses no
`gcMutex` at all. -/
theorem C8_gcMutex_scope_per_variant :
    (∀ cws : Bool, ∀ i : Fin (cmsPerformFullGCTrace cws).length,
        i.val = 0 ∨ heldAt (cmsPerformFullGCTrace cws) i.val .gcMutex = true)
    ∧ (∀ i : Fin (cmsReconfigureTrace false).length,
        i.val = 0 ∨ heldAt (cmsReconfigureTrace false) i.val .gcMutex = true)
    ∧ cmsReconfigureTrace true = []
    ∧ (∀ i : Fin stmsPerformFullGCTrace.length,
        heldAt stmsPerformFullGCTrace i.val .gcMutex = false)
    ∧ Event.acquireGcMutex ∉ stmsPerformFullGCTrace := by
  decide

/-- Claim C9 evaluated on the code: at the moment the CMS orchestrator
calls `finalizerProcessor_.ScheduleTasks`, the factory iteration locks
have indeed been released, but `gcMutex` is still held — the
`std::unique_lock` taken at `PerformFullGC` entry is released only at
scope exit, after the call — contradicting the claim (and the comment
in the code directly above the call). The STMS variant holds no lock
there. -/
theorem C9_gcMutex_still_held_at_scheduleTasks :
    (∀ cws : Bool,
      heldAt (cmsPerformFullGCTrace cws)
          (firstIdx (cmsPerformFullGCTrace cws) .scheduleTasks) .gcMutex = true
      ∧ heldAt (cmsPerformFullGCTrace cws)
          (firstIdx (cmsPerformFullGCTrace cws) .scheduleTasks) .objectFactoryLock = false
      ∧ heldAt (cmsPerformFullGCTrace cws)
          (firstIdx (cmsPerformFullGCTrace cws) .scheduleTasks) .extraObjectFactoryLock = false)
    ∧ (∀ l : Lock, heldAt stmsPerformFullGCTrace
          (firstIdx stmsPerformFullGCTrace .scheduleTasks) l = false) := by
  decide

/-- Claim C10: when the thread invoking the STMS `PerformFullGC` is not
registered as a mutator, the `RuntimeAssert` abort branch is
unreachable — the run succeeds — and the GC thread is not among the
threads the suspension coordinator waits for. -/
theorem C10_unregistered_gc_thread_runs_and_is_not_awaited
    (registeredThreads : List Nat) (gcThread : Nat)
    (h : gcThread ∉ registeredThreads) :
    ∃ r, stmsPerformFullGCRun registeredThreads gcThread = Except.ok r
      ∧ gcThread ∉ r.1 := by
  refine ⟨(registeredThreads, stmsPerformFullGCTrace), ?_, h⟩
  simp [stmsPerformFullGCRun, h]

/-- Witness for C10 with two registered mutators and an unregistered GC
thread. -/
theorem C10_unregistered_gc_thread_witness :
    ∃ r, stmsPerformFullGCRun [1, 2] 0 = Except.ok r ∧ 0 ∉ r.1 :=
  C10_unregistered_gc_thread_runs_and_is_not_awaited [1, 2] 0 (by decide)

end GCModel
